import Mathlib

/-!
Verification of the NextcloudRegisterIWI registration service.

The definitions below are a shallow embedding of `backend/server.js`
(the `/api/auth` and `/api/nextcloud/user` Express handlers, the logger
sanitizer, and the request-logging middleware) and of
`src/services/api.ts` (the two-step `register` orchestration).  Outbound
HTTP calls are modelled by passing the upstream response (or the error
the HTTP client would throw) as an explicit argument; each handler
returns its HTTP response together with a count of the outbound calls it
issued.
-/

/-- A scalar JSON value, as found in a request-body field.  JavaScript
objects/arrays as field values are not needed by the handlers modelled
here (a non-string field fails the `typeof` checks the same way a
number does). -/
inductive JVal where
  | jstr (s : String)
  | jnum (n : Int)
  | jbool (b : Bool)
  | jnull
deriving DecidableEq, Repr

/-- JavaScript truthiness of a scalar value. -/
def truthy : JVal → Bool
  | .jstr s => s != ""
  | .jnum n => n != 0
  | .jbool b => b
  | .jnull => false

/-- Truthiness of a possibly-missing field (`undefined` is falsy). -/
def truthyOpt : Option JVal → Bool
  | none => false
  | some v => truthy v

/-- `String(v)` coercion used by `URLSearchParams.append`. -/
def jvalToStr : Option JVal → String
  | some (.jstr s) => s
  | some (.jnum n) => toString n
  | some (.jbool b) => if b then "true" else "false"
  | some .jnull => "null"
  | none => "undefined"

/-- The `departments` field of an identity-provider response:
`server.js` guards with `departments && Array.isArray(departments)`
before calling `.includes('IWI')`. -/
inductive DeptField where
  | absent
  | nonArray
  | arr (ds : List String)
deriving DecidableEq, Repr

/-- The payload of a resolved identity-provider response
(`raumzeitResponse.data`). -/
structure UserData where
  personType : Option String
  departments : DeptField
deriving DecidableEq, Repr

/-- `hasIWI` from `server.js` line 181: truthy, an array, and containing
`"IWI"`. -/
def hasIWI : DeptField → Bool
  | .arr ds => ds.contains "IWI"
  | _ => false

/-- Outcome of the axios POST to `RAUMZEIT_URL/api/v1/persons`: either
the promise resolves (2xx; `data` is `none` when the body is falsy) or
it rejects with an error carrying `error.code` and
`error.response?.status`. -/
inductive IdentityResult where
  | ok (status : Nat) (data : Option UserData)
  | err (code : Option String) (respStatus : Option Nat)
deriving DecidableEq, Repr

/-- Which branch of the `/api/auth` handler produced the response. -/
inductive AuthTag where
  | missingCreds
  | invalidType
  | invalidFormat
  | invalidLength
  | notStudent
  | notDept
  | admitted
  | authFailed
  | serviceUnavail
  | internalErr
deriving DecidableEq, Repr

/-- The HTTP response of the `/api/auth` handler. -/
structure AuthResp where
  status : Nat
  success : Bool
  tag : AuthTag
deriving DecidableEq, Repr

/-- The character class of the username regexp
`/^[a-zA-Z0-9._-]+$/` (ASCII letters and digits, dot, underscore,
hyphen). -/
def validChar (c : Char) : Bool :=
  c.isAlpha || c.isDigit || c == '.' || c == '_' || c == '-'

/-- `/^[a-zA-Z0-9._-]+$/.test s`: nonempty and every character in the
class. -/
def validUname (s : String) : Bool :=
  s != "" && s.data.all validChar

/-- The eligibility decision on a 200 payload (`server.js` lines
181-220): student status first, then IWI department membership. -/
def eligibilityDecision (ud : UserData) : AuthResp :=
  if (ud.personType == some "STUDENT") = false then ⟨403, false, .notStudent⟩
  else if hasIWI ud.departments = false then ⟨403, false, .notDept⟩
  else ⟨200, true, .admitted⟩

/-- Interpretation of the identity-provider outcome (`server.js` lines
177-256): the 200-with-payload branch, the 401 fallback, and the catch
block mapping `ENOTFOUND` to 503, upstream 401/403 to 401, everything
else to 500. -/
def identityDispatch : IdentityResult → AuthResp
  | .ok st (some ud) =>
      if st == 200 then eligibilityDecision ud else ⟨401, false, .authFailed⟩
  | .ok _ none => ⟨401, false, .authFailed⟩
  | .err code rs =>
      if code == some "ENOTFOUND" then ⟨503, false, .serviceUnavail⟩
      else if rs == some 401 || rs == some 403 then ⟨401, false, .authFailed⟩
      else ⟨500, false, .internalErr⟩

/-- The `/api/auth` handler (`server.js` lines 113-256).  Returns the
response together with the number of outbound identity-provider calls.
`String.length` counts code points where JavaScript counts UTF-16
units; the two agree on the ASCII strings the format check admits. -/
def authHandler (uname pwd : Option JVal) (idRes : IdentityResult) :
    AuthResp × Nat :=
  if truthyOpt uname = false || truthyOpt pwd = false then
    (⟨400, false, .missingCreds⟩, 0)
  else
    match uname, pwd with
    | some (.jstr u), some (.jstr p) =>
        if validUname u = false then (⟨400, false, .invalidFormat⟩, 0)
        else if p.length < 1 || p.length > 256 then
          (⟨400, false, .invalidLength⟩, 0)
        else (identityDispatch idRes, 1)
    | _, _ => (⟨400, false, .invalidType⟩, 0)

/-- The claim-level validity predicate for the identifier: present, a
string, and matching the character-class pattern. -/
def validIdentifier : Option JVal → Bool
  | some (.jstr s) => validUname s
  | _ => false

/-- The claim-level validity predicate for the secret: present, a
string, of length 1-256. -/
def validSecret : Option JVal → Bool
  | some (.jstr s) => decide (1 ≤ s.length) && decide (s.length ≤ 256)
  | _ => false

/-!
The `/api/nextcloud/user` handler (`server.js` lines 260-466).
-/

/-- Outcome of the axios GET existence check.  With
`validateStatus: status < 500` the promise resolves for any transport
status below 500 (carrying the parsed `ocs.meta` fields); otherwise it
rejects with `error.code` and `error.response?.status`. -/
inductive CheckOutcome where
  | resolved (httpStatus : Nat) (code : Option Int) (st : Option String)
  | thrown (errCode : Option String) (respStatus : Option Nat)
deriving DecidableEq, Repr

/-- Outcome of the axios POST creating the user (same
`validateStatus`); a rejection reaches the outer catch, which only
looks at `error.response?.status`. -/
inductive CreateOutcome where
  | resolved (httpStatus : Nat) (code : Option Int) (st : Option String)
      (msg : Option String)
  | thrown (respStatus : Option Nat)
deriving DecidableEq, Repr

/-- Which branch of the `/api/nextcloud/user` handler produced the
response. -/
inductive NCTag where
  | missingFields
  | credsNotConfigured
  | adminAuthInvalid
  | alreadyExists
  | created
  | ocsAuthRejected
  | createRejected
  | upstreamFailure
  | internalError
deriving DecidableEq, Repr

/-- The HTTP response of the `/api/nextcloud/user` handler. -/
structure NCResp where
  status : Nat
  success : Bool
  tag : NCTag
deriving DecidableEq, Repr

/-- A full run of the `/api/nextcloud/user` handler: the response, the
number of existence-check calls, the number of creation calls, and the
form data sent by the creation call (when issued). -/
structure NCRun where
  resp : NCResp
  checkCalls : Nat
  createCalls : Nat
  form : Option (List (String × String))
deriving DecidableEq, Repr

/-- `ocsStatusCode === 100 || ocsStatusCode === 200 || ocsStatus === 'ok'`
(`server.js` lines 327 and 414). -/
def innerOk (code : Option Int) (st : Option String) : Bool :=
  code == some 100 || code == some 200 || st == some "ok"

/-- `ocsStatusCode === 404 || ocsStatusCode === 998 || ocsStatus === 'failure'`
(`server.js` line 337); the branch only logs, so it has no observable
effect beyond falling through to creation. -/
def innerNotFound (code : Option Int) (st : Option String) : Bool :=
  code == some 404 || code == some 998 || st == some "failure"

/-- The existence-check dispatch (`server.js` lines 287-361): `some r`
means the handler responds `r` without creating; `none` means it falls
through to the creation call.  A resolved response whose inner status
is neither the exists-signal nor the not-found-signal also falls
through, since the not-found branch only logs. -/
def existencePhase : CheckOutcome → Option NCResp
  | .resolved hs code st =>
      if hs == 401 then some ⟨500, false, .adminAuthInvalid⟩
      else if innerOk code st then some ⟨409, false, .alreadyExists⟩
      else none
  | .thrown ec rs =>
      if ec != some "ECONNREFUSED" && ec != some "ENOTFOUND" then
        if rs == some 401 then some ⟨500, false, .adminAuthInvalid⟩
        else
          match rs with
          | some s => some ⟨s, false, .upstreamFailure⟩
          | none => some ⟨500, false, .internalError⟩
      else none

/-- The `URLSearchParams` form data (`server.js` lines 366-371):
`displayName` is appended only when truthy. -/
def creationForm (u e : String) (d : Option JVal) : List (String × String) :=
  [("userid", u), ("email", e)] ++
    (if truthyOpt d then [("displayName", jvalToStr d)] else [])

/-- The creation-response dispatch (`server.js` lines 387-465). -/
def creationPhase : CreateOutcome → NCResp
  | .resolved hs code st _msg =>
      if hs == 401 then ⟨500, false, .adminAuthInvalid⟩
      else if innerOk code st then ⟨201, true, .created⟩
      else if code == some 997 then ⟨500, false, .ocsAuthRejected⟩
      else ⟨400, false, .createRejected⟩
  | .thrown rs =>
      match rs with
      | some s => ⟨s, false, .upstreamFailure⟩
      | none => ⟨500, false, .internalError⟩

/-- The `/api/nextcloud/user` handler (`server.js` lines 260-466).
`creds` states whether `NEXTCLOUD_ADMIN_USER`/`PASSWORD` are
configured.  The handler takes no eligibility information: nothing in
its code consults any prior `/api/auth` outcome. -/
def nextcloudUserHandler (uname email dname : Option JVal) (creds : Bool)
    (chk : CheckOutcome) (crt : CreateOutcome) : NCRun :=
  if truthyOpt uname = false || truthyOpt email = false then
    ⟨⟨400, false, .missingFields⟩, 0, 0, none⟩
  else if creds = false then
    ⟨⟨500, false, .credsNotConfigured⟩, 0, 0, none⟩
  else
    match existencePhase chk with
    | some r => ⟨r, 1, 0, none⟩
    | none =>
        ⟨creationPhase crt, 1, 1,
          some (creationForm (jvalToStr uname) (jvalToStr email) dname)⟩

/-!
The frontend two-step orchestration (`src/services/api.ts`).
-/

/-- The JSON body returned by the backend, as seen by the frontend. -/
structure BackendBody where
  success : Bool
  message : Option String
deriving DecidableEq, Repr

/-- Outcome of one `this.client.post` from the frontend's perspective:
resolved (2xx), rejected with an HTTP error response, or rejected with
a network error. -/
inductive PostOutcome where
  | ok (data : BackendBody)
  | errResp (status : Nat) (msg : Option String)
  | errNet
deriving DecidableEq, Repr

/-- The `ApiResponse` value a private helper of `ApiService` returns. -/
structure FrontResp where
  success : Bool
  msg : Option String
deriving DecidableEq, Repr

/-- `ApiService.checkUserEligibility` (`api.ts` lines 92-112): success
iff the POST to `/auth` resolves. -/
def checkUserEligibility : PostOutcome → FrontResp
  | .ok _ => ⟨true, some "User is eligible"⟩
  | .errResp _ m => ⟨false, m⟩
  | .errNet => ⟨false, none⟩

/-- `ApiService.createNextcloudUser` (`api.ts` lines 117-133): returns
the backend body on success. -/
def createNextcloudUser : PostOutcome → FrontResp
  | .ok d => ⟨d.success, d.message⟩
  | .errResp _ m => ⟨false, m⟩
  | .errNet => ⟨false, none⟩

/-- `ApiService.register` (`api.ts` lines 138-157): eligibility first,
then creation; the second component counts the calls made to the
`/nextcloud/user` provisioning endpoint (the only path by which the
storage platform is ever contacted). -/
def register (authStep ncStep : PostOutcome) : FrontResp × Nat :=
  let e := checkUserEligibility authStep
  if e.success then (createNextcloudUser ncStep, 1) else (e, 0)

/-!
The backend logger and the request-logging middleware
(`server.js` lines 21-103).  The middleware logs
`{path, ip, userAgent, body: safeBody}` where `safeBody` is a shallow
copy of the request body with only `rzPassword` replaced, and
`logger.sanitize` redacts only the top level of the record it is given.
We model request bodies as flat objects with scalar fields (the shape
the registration requests have) and `JSON.stringify` on the resulting
record shape, including its escaping of quote and backslash. -/

/-- A flat JSON object: the model of a request body. -/
abbrev FlatObj := List (String × JVal)

/-- A value of the middleware's log record: the three metadata strings,
or the nested body object. -/
inductive MwVal where
  | vstr (s : String)
  | vobj (fs : FlatObj)

/-- Truthiness of a log-record value (objects are always truthy). -/
def mwTruthy : MwVal → Bool
  | .vstr s => s != ""
  | .vobj _ => true

/-- `JSON.stringify` escaping of one character (quote and backslash;
control characters do not occur in the strings modelled here). -/
def escapeChar (c : Char) : List Char :=
  if c == '"' || c == '\\' then ['\\', c] else [c]

/-- `JSON.stringify` escaping of a string body. -/
def escapeStr : List Char → List Char
  | [] => []
  | c :: cs => escapeChar c ++ escapeStr cs

/-- A JSON string literal: quote, escaped body, quote. -/
def quoteStr (s : List Char) : List Char :=
  '"' :: escapeStr s ++ ['"']

/-- `JSON.stringify` of a scalar value. -/
def scalarStr : JVal → List Char
  | .jstr s => quoteStr s.data
  | .jnum n => (toString n).data
  | .jbool b => if b then "true".data else "false".data
  | .jnull => "null".data

/-- The comma-joined field list of a flat object under
`JSON.stringify`. -/
def flatBlob : FlatObj → List Char
  | [] => []
  | (k, v) :: rest =>
      quoteStr k.data ++ ':' :: scalarStr v ++
        (match rest with
         | [] => []
         | _ :: _ => ',' :: flatBlob rest)

/-- `JSON.stringify` of a log-record value. -/
def mwValStr : MwVal → List Char
  | .vstr s => quoteStr s.data
  | .vobj fs => '{' :: flatBlob fs ++ ['}']

/-- The comma-joined field list of the log record under
`JSON.stringify`. -/
def mwFieldsBlob : List (String × MwVal) → List Char
  | [] => []
  | (k, v) :: rest =>
      quoteStr k.data ++ ':' :: mwValStr v ++
        (match rest with
         | [] => []
         | _ :: _ => ',' :: mwFieldsBlob rest)

/-- `JSON.stringify` of the log record. -/
def mwStringify (fs : List (String × MwVal)) : List Char :=
  '{' :: mwFieldsBlob fs ++ ['}']

/-- The field names `logger.sanitize` redacts (`server.js` line 36). -/
def sensitiveFields : List String :=
  ["rzPassword", "password", "token", "secret", "apiKey", "authorization"]

/-- `logger.sanitize` (`server.js` lines 31-44): a shallow copy in
which each truthy top-level sensitive field is replaced by
`"[REDACTED]"`; it never recurses into nested objects. -/
def sanitizeRecord (fs : List (String × MwVal)) : List (String × MwVal) :=
  fs.map fun kv =>
    if sensitiveFields.contains kv.1 && mwTruthy kv.2 then
      (kv.1, .vstr "[REDACTED]")
    else kv

/-- Field lookup in a flat object (JavaScript object keys are unique,
so the first match is the property). -/
def lookupField (k : String) (fs : FlatObj) : Option JVal :=
  match fs.find? (fun kv => kv.1 == k) with
  | some kv => some kv.2
  | none => none

/-- The middleware's `safeBody` (`server.js` lines 91-94): a copy of
the body in which `rzPassword`, when truthy, is replaced by
`"[REDACTED]"`; a missing body becomes `{}`. -/
def mwSafeBody : Option FlatObj → FlatObj
  | none => []
  | some fs =>
      if truthyOpt (lookupField "rzPassword" fs) then
        fs.map fun kv =>
          if kv.1 == "rzPassword" then (kv.1, .jstr "[REDACTED]") else kv
      else fs

/-- The record the middleware passes to `logger.info`
(`server.js` lines 96-101). -/
def mwRecord (path ip ua : String) (body : Option FlatObj) :
    List (String × MwVal) :=
  [("path", .vstr path), ("ip", .vstr ip), ("userAgent", .vstr ua),
   ("body", .vobj (mwSafeBody body))]

/-- The full serialized middleware log line
(`logger.info`, `server.js` lines 46-51):
`[INFO] <timestamp> - Incoming <method> request <stringified record>`. -/
def mwLogLine (ts method path ip ua : String) (body : Option FlatObj) :
    List Char :=
  ("[INFO] " ++ ts ++ " - " ++ ("Incoming " ++ method ++ " request") ++
      " ").data ++
    mwStringify (sanitizeRecord (mwRecord path ip ua body))

/-!
Contiguous-occurrence machinery for the redaction claims: `occursIn s l`
decides whether `s` occurs as a contiguous segment of `l`.
-/

/-- `isPrefOf s l`: `s` is a prefix of `l`. -/
def isPrefOf : List Char → List Char → Bool
  | [], _ => true
  | _ :: _, [] => false
  | a :: s, b :: l => a == b && isPrefOf s l

/-- `occursIn s l`: `s` occurs as a contiguous segment of `l`. -/
def occursIn (s : List Char) : List Char → Bool
  | [] => isPrefOf s []
  | a :: l => isPrefOf s (a :: l) || occursIn s l

/-- Decidable isolation condition on one request-body field with
respect to a secret `s`: the field is string-valued, its key needs no
JSON escaping and does not contain `s`, and its value likewise unless
the field is the `rzPassword` field (whose value the middleware
redacts). -/
def bodyFieldSafe (s : List Char) (kv : String × JVal) : Bool :=
  match kv.2 with
  | .jstr v =>
      decide (escapeStr kv.1.data = kv.1.data) && !(occursIn s kv.1.data) &&
        (kv.1 == "rzPassword" ||
          (decide (escapeStr v.data = v.data) && !(occursIn s v.data)))
  | _ => false

/-- A nonempty list never occurs in the empty list. -/
theorem occursIn_nil_eq_false (s : List Char) (hs : s ≠ []) :
    occursIn s [] = false := by
  cases s with
  | nil => exact absurd rfl hs
  | cons a s => rfl

/-- Every character of a prefix is a character of the list. -/
theorem mem_of_isPrefOf {s l : List Char} (h : isPrefOf s l = true)
    {c : Char} (hc : c ∈ s) : c ∈ l := by
  induction s generalizing l with
  | nil => cases hc
  | cons a s ih =>
      cases l with
      | nil => simp [isPrefOf] at h
      | cons b l =>
          simp only [isPrefOf, Bool.and_eq_true, beq_iff_eq] at h
          cases hc with
          | head => exact h.1 ▸ List.mem_cons_self b l
          | tail _ hmem => exact List.mem_cons_of_mem b (ih h.2 hmem)

/-- Every character of an occurring segment is a character of the
list. -/
theorem mem_of_occursIn {s l : List Char} (h : occursIn s l = true)
    {c : Char} (hc : c ∈ s) : c ∈ l := by
  induction l with
  | nil =>
      cases s with
      | nil => cases hc
      | cons a s => simp [occursIn, isPrefOf] at h
  | cons b l ih =>
      simp only [occursIn, Bool.or_eq_true] at h
      rcases h with h | h
      · exact mem_of_isPrefOf h hc
      · exact List.mem_cons_of_mem b (ih h)

/-- If `s` has no character in `l`, it does not occur in `l`. -/
theorem occursIn_eq_false_of_disjoint (s l : List Char) (hs : s ≠ [])
    (h : ∀ c ∈ s, c ∉ l) : occursIn s l = false := by
  cases hocc : occursIn s l with
  | false => rfl
  | true =>
      cases s with
      | nil => exact absurd rfl hs
      | cons a s =>
          exact absurd (mem_of_occursIn hocc (List.mem_cons_self a s))
            (h a (List.mem_cons_self a s))

/-- A prefix of `l₁ ++ c :: l₂` that avoids `c` is a prefix of `l₁`. -/
theorem isPrefOf_split {s : List Char} (l₁ l₂ : List Char) {c : Char}
    (hc : c ∉ s) (h : isPrefOf s (l₁ ++ c :: l₂) = true) :
    isPrefOf s l₁ = true := by
  induction l₁ generalizing s with
  | nil =>
      cases s with
      | nil => rfl
      | cons a s =>
          simp only [List.nil_append, isPrefOf, Bool.and_eq_true,
            beq_iff_eq] at h
          exact absurd (h.1 ▸ List.mem_cons_self a s) (h.1 ▸ hc)
  | cons b l₁ ih =>
      cases s with
      | nil => rfl
      | cons a s =>
          simp only [List.cons_append, isPrefOf, Bool.and_eq_true,
            beq_iff_eq] at h ⊢
          refine ⟨h.1, ih ?_ h.2⟩
          exact fun hmem => hc (List.mem_cons_of_mem a hmem)

/-- An occurrence avoiding `c` lies entirely left or entirely right of
a `c` separator. -/
theorem occursIn_split {s : List Char} (l₁ l₂ : List Char) {c : Char}
    (hc : c ∉ s) (h : occursIn s (l₁ ++ c :: l₂) = true) :
    occursIn s l₁ = true ∨ occursIn s l₂ = true := by
  induction l₁ with
  | nil =>
      simp only [List.nil_append, occursIn, Bool.or_eq_true] at h
      rcases h with h | h
      · have hpref : isPrefOf s [] = true := isPrefOf_split [] l₂ hc h
        cases s with
        | nil => exact Or.inl rfl
        | cons a s => simp [isPrefOf] at hpref
      · exact Or.inr h
  | cons b l₁ ih =>
      simp only [List.cons_append, occursIn, Bool.or_eq_true] at h
      rcases h with h | h
      · have hpref : isPrefOf s (b :: l₁) = true :=
          isPrefOf_split (b :: l₁) l₂ hc h
        cases s with
        | nil => exact Or.inl rfl
        | cons a s => exact Or.inl (by simp [occursIn, hpref])
      · rcases ih h with h' | h'
        · exact Or.inl (by simp [occursIn, h'])
        · exact Or.inr h'

/-- Contrapositive form of `occursIn_split`, used to peel serialized
output at a separator character that the secret does not contain. -/
theorem occursIn_split_false {s : List Char} (l₁ l₂ : List Char)
    {c : Char} (hc : c ∉ s) (h₁ : occursIn s l₁ = false)
    (h₂ : occursIn s l₂ = false) :
    occursIn s (l₁ ++ c :: l₂) = false := by
  cases h : occursIn s (l₁ ++ c :: l₂) with
  | false => rfl
  | true =>
      rcases occursIn_split l₁ l₂ hc h with h' | h' <;> simp_all

/-- A secret avoiding the character `c` does not occur in the
singleton `[c']` for any `c'` it avoids. -/
theorem occursIn_singleton_eq_false (s : List Char) (c : Char)
    (hne : s ≠ []) (hc : c ∉ s) : occursIn s [c] = false := by
  refine occursIn_eq_false_of_disjoint s [c] hne ?_
  intro d hd hdc
  simp only [List.mem_singleton] at hdc
  exact hc (hdc ▸ hd)

/-- If a string contains neither quote nor backslash, `JSON.stringify`
escaping leaves it unchanged. -/
theorem escapeStr_eq_self (l : List Char) (hq : '"' ∉ l)
    (hb : '\\' ∉ l) : escapeStr l = l := by
  induction l with
  | nil => rfl
  | cons c cs ih =>
      have hcq : ¬(c == '"' || c == '\\') = true := by
        simp only [Bool.or_eq_true, beq_iff_eq]
        rintro (rfl | rfl)
        · exact hq (List.mem_cons_self _ _)
        · exact hb (List.mem_cons_self _ _)
      simp only [escapeStr, escapeChar, if_neg hcq, List.cons_append,
        List.nil_append]
      rw [ih (fun h => hq (List.mem_cons_of_mem c h))
        (fun h => hb (List.mem_cons_of_mem c h))]

/-- Peeling one serialized `"key":"value"` piece: if the secret occurs
neither in the key, nor in the value, nor in what follows the value's
closing quote, it does not occur in the piece. -/
theorem piece_free (s k v mid : List Char) (hne : s ≠ [])
    (hq : '"' ∉ s) (hcolon : ':' ∉ s)
    (hk : occursIn s k = false) (hv : occursIn s v = false)
    (hmid : occursIn s mid = false) :
    occursIn s ('"' :: (k ++ '"' :: ':' :: '"' :: (v ++ '"' :: mid))) =
      false := by
  have h4 : occursIn s (v ++ '"' :: mid) = false :=
    occursIn_split_false v mid hq hv hmid
  have h3 : occursIn s (':' :: '"' :: (v ++ '"' :: mid)) = false := by
    have := occursIn_split_false [':'] (v ++ '"' :: mid) hq
      (occursIn_singleton_eq_false s ':' hne hcolon) h4
    simpa using this
  have h2 : occursIn s (k ++ '"' :: ':' :: '"' :: v ++ '"' :: mid) =
      false := by
    have := occursIn_split_false k (':' :: '"' :: (v ++ '"' :: mid)) hq hk h3
    simpa [List.append_assoc] using this
  have h1 := occursIn_split_false []
    (k ++ '"' :: ':' :: '"' :: v ++ '"' :: mid) hq
    (occursIn_nil_eq_false s hne) h2
  simpa using h1

/-- The serialized field list of a flat string-valued object does not
contain the secret, provided the secret avoids the JSON structural
characters, is not a substring of any key or value, and does not occur
in the material following the field list. -/
theorem flatBlob_free (s : List Char) (hne : s ≠ [])
    (hq : '"' ∉ s) (hcolon : ':' ∉ s) (hcomma : ',' ∉ s)
    (fs : FlatObj)
    (hkv : ∀ kv ∈ fs,
      (∃ v : String, kv.2 = JVal.jstr v ∧ escapeStr v.data = v.data ∧
        occursIn s v.data = false) ∧
      escapeStr kv.1.data = kv.1.data ∧ occursIn s kv.1.data = false)
    (tail : List Char) (htail : occursIn s tail = false) :
    occursIn s (flatBlob fs ++ tail) = false := by
  induction fs with
  | nil => simpa [flatBlob] using htail
  | cons kv rest ih =>
      obtain ⟨⟨v, hv2, hvesc, hvocc⟩, hkesc, hkocc⟩ :=
        hkv kv (List.mem_cons_self kv rest)
      have ih' := ih (fun kv' hkv' => hkv kv' (List.mem_cons_of_mem kv hkv'))
      obtain ⟨k, kv2⟩ := kv
      cases hv2
      cases rest with
      | nil =>
          have := piece_free s k.data v.data tail hne hq hcolon hkocc
            hvocc htail
          simpa [flatBlob, scalarStr, quoteStr, hvesc, hkesc,
            List.append_assoc] using this
      | cons kv' rest' =>
          have hcons : occursIn s (flatBlob (kv' :: rest') ++ tail) =
              false := ih'
          have hcomma' : occursIn s
              (',' :: (flatBlob (kv' :: rest') ++ tail)) = false := by
            have := occursIn_split_false []
              (flatBlob (kv' :: rest') ++ tail) hcomma
              (occursIn_nil_eq_false s hne) hcons
            simpa using this
          have := piece_free s k.data v.data
            (',' :: (flatBlob (kv' :: rest') ++ tail)) hne hq hcolon
            hkocc hvocc hcomma'
          simpa [flatBlob, scalarStr, quoteStr, hvesc, hkesc,
            List.append_assoc] using this

/-- With pairwise-distinct keys (the JavaScript object invariant), an
entry named `rzPassword` is the one the lookup finds. -/
theorem lookup_unique {fs : FlatObj}
    (hnd : fs.Pairwise (fun a b => a.1 ≠ b.1))
    {kv : String × JVal} (hmem : kv ∈ fs) (hk : kv.1 = "rzPassword") :
    lookupField "rzPassword" fs = some kv.2 := by
  induction fs with
  | nil => cases hmem
  | cons a rest ih =>
      rw [List.pairwise_cons] at hnd
      cases hmem with
      | head =>
          have hfind : List.find? (fun kv => kv.1 == "rzPassword")
              (kv :: rest) = some kv :=
            List.find?_cons_of_pos _ (by simp [hk])
          simp [lookupField, hfind]
      | tail _ hmem' =>
          have hpa : ¬((a.1 == "rzPassword") = true) := by
            simp only [beq_iff_eq]
            exact fun h => hnd.1 kv hmem' (h.trans hk.symm)
          have hfind : List.find? (fun kv => kv.1 == "rzPassword")
              (a :: rest) =
              List.find? (fun kv => kv.1 == "rzPassword") rest :=
            List.find?_cons_of_neg _ hpa
          have := ih hnd.2 hmem'
          simpa [lookupField, hfind] using this

/-- The fields of the middleware's `safeBody` satisfy the
non-occurrence hypotheses of `flatBlob_free`: the `rzPassword` value is
either redacted (when truthy) or the empty string, and every other
value is hypothesised secret-free. -/
theorem mwSafeBody_fields (s : List Char) (hne : s ≠ [])
    (bodyFields : FlatObj)
    (hnd : bodyFields.Pairwise (fun a b => a.1 ≠ b.1))
    (hred : occursIn s "[REDACTED]".data = false)
    (hf : ∀ kv ∈ bodyFields,
      escapeStr kv.1.data = kv.1.data ∧ occursIn s kv.1.data = false ∧
      ∃ v : String, kv.2 = JVal.jstr v ∧
        (kv.1 = "rzPassword" ∨
          (escapeStr v.data = v.data ∧ occursIn s v.data = false))) :
    ∀ kv ∈ mwSafeBody (some bodyFields),
      (∃ v : String, kv.2 = JVal.jstr v ∧ escapeStr v.data = v.data ∧
        occursIn s v.data = false) ∧
      escapeStr kv.1.data = kv.1.data ∧ occursIn s kv.1.data = false := by
  intro kv hkv
  simp only [mwSafeBody] at hkv
  by_cases hlk : truthyOpt (lookupField "rzPassword" bodyFields) = true
  · rw [if_pos hlk] at hkv
    obtain ⟨kv₀, hmem₀, heq₀⟩ := List.mem_map.mp hkv
    obtain ⟨hke, hko, v, hv, hor⟩ := hf kv₀ hmem₀
    by_cases hk0 : (kv₀.1 == "rzPassword") = true
    · rw [if_pos hk0] at heq₀
      subst heq₀
      exact ⟨⟨"[REDACTED]", rfl, rfl, hred⟩, hke, hko⟩
    · rw [if_neg hk0] at heq₀
      subst heq₀
      rcases hor with hor | hor
      · exact absurd (by simp [hor]) hk0
      · exact ⟨⟨v, hv, hor.1, hor.2⟩, hke, hko⟩
  · rw [if_neg hlk] at hkv
    obtain ⟨hke, hko, v, hv, hor⟩ := hf kv hkv
    rcases hor with hor | hor
    · have hlu := lookup_unique hnd hkv hor
      rw [hlu] at hlk
      simp only [truthyOpt, hv, truthy, bne_iff_ne, ne_eq,
        Decidable.not_not] at hlk
      subst hlk
      exact ⟨⟨"", hv, rfl, occursIn_nil_eq_false s hne⟩, hke, hko⟩
    · exact ⟨⟨v, hv, hor.1, hor.2⟩, hke, hko⟩

/-- The middleware log line, written out as the explicit character
sequence `JSON.stringify` produces on the middleware's record (for
metadata strings that escaping leaves unchanged). -/
theorem mwLogLine_eq (ts method path ip ua : String) (b : Option FlatObj)
    (e₁ : escapeStr path.data = path.data)
    (e₂ : escapeStr ip.data = ip.data)
    (e₃ : escapeStr ua.data = ua.data) :
    mwLogLine ts method path ip ua b =
      ("[INFO] " ++ ts ++ " - " ++ ("Incoming " ++ method ++ " request") ++
          " ").data ++
        '{' :: '"' :: ("path".data ++ '"' :: ':' :: '"' ::
          (path.data ++ '"' :: ',' ::
        ('"' :: ("ip".data ++ '"' :: ':' :: '"' ::
          (ip.data ++ '"' :: ',' ::
        ('"' :: ("userAgent".data ++ '"' :: ':' :: '"' ::
          (ua.data ++ '"' :: ',' ::
        ('"' :: ("body".data ++ '"' :: ':' ::
          '{' :: (flatBlob (mwSafeBody b) ++ '}' :: '}' :: []))))))))))) := by
  have hsan : sanitizeRecord (mwRecord path ip ua b) =
      mwRecord path ip ua b := rfl
  have ep : escapeStr "path".data = "path".data := rfl
  have ei : escapeStr "ip".data = "ip".data := rfl
  have eu : escapeStr "userAgent".data = "userAgent".data := rfl
  have eb : escapeStr "body".data = "body".data := rfl
  simp [mwLogLine, hsan, mwStringify, mwRecord, mwFieldsBlob, mwValStr,
    quoteStr, e₁, e₂, e₃, ep, ei, eu, eb, List.append_assoc]

/-- Unpacking the decidable per-field condition into the propositional
form used by `mwSafeBody_fields`. -/
theorem bodyFieldSafe_spec (s : List Char) (kv : String × JVal)
    (h : bodyFieldSafe s kv = true) :
    escapeStr kv.1.data = kv.1.data ∧ occursIn s kv.1.data = false ∧
    ∃ v : String, kv.2 = JVal.jstr v ∧
      (kv.1 = "rzPassword" ∨
        (escapeStr v.data = v.data ∧ occursIn s v.data = false)) := by
  obtain ⟨k, v⟩ := kv
  cases v with
  | jstr v =>
      simp only [bodyFieldSafe, Bool.and_eq_true, Bool.or_eq_true,
        decide_eq_true_eq, Bool.not_eq_true', beq_iff_eq] at h
      exact ⟨h.1.1, h.1.2, v, rfl, h.2.imp id (fun h' => ⟨h'.1, h'.2⟩)⟩
  | jnum n => simp [bodyFieldSafe] at h
  | jbool b => simp [bodyFieldSafe] at h
  | jnull => simp [bodyFieldSafe] at h

/-- With well-formed credentials, the `/api/auth` handler performs the
single identity-provider call and returns its interpretation. -/
theorem authHandler_valid (u p : String) (hu : validUname u = true)
    (hp1 : 1 ≤ p.length) (hp2 : p.length ≤ 256) (idRes : IdentityResult) :
    authHandler (some (.jstr u)) (some (.jstr p)) idRes =
      (identityDispatch idRes, 1) := by
  have hu' : (u != "") = true := by
    have h := hu
    simp only [validUname, Bool.and_eq_true] at h
    exact h.1
  have hp' : (p != "") = true := by
    simp only [bne_iff_ne, ne_eq]
    intro h
    subst h
    exact absurd hp1 (by decide)
  simp [authHandler, truthyOpt, truthy, hu', hp', hu]
  omega

/-- The existence-check dispatch never signals the malformed-input
rejection. -/
theorem existencePhase_tag_ne (chk : CheckOutcome) (r : NCResp)
    (h : existencePhase chk = some r) : r.tag ≠ NCTag.missingFields := by
  cases chk with
  | resolved hs code st =>
      simp only [existencePhase] at h
      split at h
      · cases h; simp
      · split at h
        · cases h; simp
        · cases h
  | thrown ec rs =>
      simp only [existencePhase] at h
      split at h
      · split at h
        · cases h; simp
        · cases rs with
          | some s => cases h; simp
          | none => cases h; simp
      · cases h

/-- The creation-call dispatch never signals the malformed-input
rejection. -/
theorem creationPhase_tag_ne (crt : CreateOutcome) :
    (creationPhase crt).tag ≠ NCTag.missingFields := by
  cases crt with
  | resolved hs code st msg =>
      simp only [creationPhase]
      split
      · simp
      · split
        · simp
        · split <;> simp
  | thrown rs =>
      cases rs with
      | some s => simp [creationPhase]
      | none => simp [creationPhase]

/-- Claim C1: for every run of the two-step `register` orchestration in
which the eligibility step returns a non-success verdict, the
orchestrator returns that eligibility result immediately and issues
zero calls toward the storage platform (the `/nextcloud/user` endpoint,
through which the existence check and the creation call are made, is
never invoked). -/
theorem claim1_register_short_circuits (authStep ncStep : PostOutcome)
    (h : (checkUserEligibility authStep).success = false) :
    register authStep ncStep = (checkUserEligibility authStep, 0) := by
  simp [register, h]

/-- Witness for claim C1 at a concrete denied verdict. -/
theorem claim1_register_short_circuits_witness :
    (checkUserEligibility
      (.errResp 403 (some "Access denied: Person is not a student"))).success =
        false ∧
    register (.errResp 403 (some "Access denied: Person is not a student"))
        (.ok ⟨true, none⟩) =
      (checkUserEligibility
        (.errResp 403 (some "Access denied: Person is not a student")), 0) :=
  ⟨by decide,
    claim1_register_short_circuits
      (.errResp 403 (some "Access denied: Person is not a student"))
      (.ok ⟨true, none⟩) (by decide)⟩

/-- Claim C5: for every identity response whose `personType` is not
`"STUDENT"`, the verdict is the 403 not-a-student rejection, whatever
the `departments` field holds; the department check is reached only
after the student check passes. -/
theorem claim5_student_checked_first (pt : Option String) (depts : DeptField)
    (hpt : pt ≠ some "STUDENT") :
    authHandler (some (.jstr "jdoe")) (some (.jstr "pw123"))
        (.ok 200 (some ⟨pt, depts⟩)) =
      (⟨403, false, .notStudent⟩, 1) := by
  rw [authHandler_valid "jdoe" "pw123" (by decide) (by decide) (by decide)]
  simp [identityDispatch, eligibilityDecision, hpt]

/-- Witness for claim C5: a non-student whose departments do contain
`"IWI"` is still rejected as not-a-student. -/
theorem claim5_student_checked_first_witness :
    some "EMPLOYEE" ≠ some "STUDENT" ∧
    authHandler (some (.jstr "jdoe")) (some (.jstr "pw123"))
        (.ok 200 (some ⟨some "EMPLOYEE", .arr ["IWI"]⟩)) =
      (⟨403, false, .notStudent⟩, 1) :=
  ⟨by decide,
    claim5_student_checked_first (some "EMPLOYEE") (.arr ["IWI"]) (by decide)⟩

/-- Claim C6: for every request whose identifier fails the pattern
`^[A-Za-z0-9._-]+$` (including missing or non-string identifiers) or
whose secret is not a string of length 1-256 (including missing or
non-string secrets), the `/api/auth` handler rejects with status 400
and issues zero outbound identity-provider calls. -/
theorem claim6_validation_before_call (uname pwd : Option JVal)
    (idRes : IdentityResult)
    (h : validIdentifier uname = false ∨ validSecret pwd = false) :
    (authHandler uname pwd idRes).1.status = 400 ∧
      (authHandler uname pwd idRes).2 = 0 := by
  by_cases hu : truthyOpt uname = true
  case neg =>
    have hu' : truthyOpt uname = false := by simpa using hu
    simp [authHandler, hu']
  case pos =>
  by_cases hp : truthyOpt pwd = true
  case neg =>
    have hp' : truthyOpt pwd = false := by simpa using hp
    simp [authHandler, hp', hu]
  case pos =>
  rcases uname with _ | u
  · simp [truthyOpt] at hu
  rcases pwd with _ | p
  · simp [truthyOpt] at hp
  simp only [truthyOpt] at hu hp
  rcases u with us | un | ub | _ <;> rcases p with ps | pn | pb | _ <;>
    try (simp [authHandler, truthyOpt, hu, hp]; done)
  -- both fields are strings: the disjunction forces a format or
  -- length failure
  rcases h with h | h
  · have hformat : validUname us = false := by
      simpa [validIdentifier] using h
    simp [authHandler, truthyOpt, hu, hp, hformat]
  · have hge : 1 ≤ ps.length := by
      rcases Nat.eq_zero_or_pos ps.length with h0 | h1
      · exfalso
        obtain ⟨l⟩ := ps
        simp only [String.mk_length] at h0
        have hnil := List.length_eq_zero.mp h0
        subst hnil
        simp [truthy] at hp
      · exact h1
    have hgt : ps.length > 256 := by
      by_contra hle
      have hok : validSecret (some (.jstr ps)) = true := by
        simp [validSecret, hge, Nat.not_lt.mp hle]
      simp [hok] at h
    cases hval : validUname us <;>
      simp [authHandler, truthyOpt, hu, hp, hval, hgt]

/-- Witness for claim C6: an identifier containing a space is rejected
locally. -/
theorem claim6_validation_before_call_witness :
    (validIdentifier (some (.jstr "bad name")) = false ∨
      validSecret (some (.jstr "pw123")) = false) ∧
    (authHandler (some (.jstr "bad name")) (some (.jstr "pw123"))
        (.ok 200 none)).1.status = 400 ∧
    (authHandler (some (.jstr "bad name")) (some (.jstr "pw123"))
        (.ok 200 none)).2 = 0 :=
  ⟨Or.inl (by decide),
    claim6_validation_before_call (some (.jstr "bad name"))
      (some (.jstr "pw123")) (.ok 200 none) (Or.inl (by decide))⟩

/-- Claim C2: in the provisioning handler (non-401 resolved existence
check), an inner OCS status signalling "ok" yields the 409
already-exists outcome with zero creation calls, and an inner status
signalling "not found"/"failure" (and not "ok") yields exactly one
creation call. -/
theorem claim2_existence_check_dispatch (uname email dname : Option JVal)
    (crt : CreateOutcome) (hs : Nat) (code : Option Int) (st : Option String)
    (hu : truthyOpt uname = true) (he : truthyOpt email = true)
    (h401 : hs ≠ 401) :
    (innerOk code st = true →
      nextcloudUserHandler uname email dname true (.resolved hs code st) crt =
        ⟨⟨409, false, .alreadyExists⟩, 1, 0, none⟩) ∧
    (innerOk code st = false → innerNotFound code st = true →
      (nextcloudUserHandler uname email dname true
          (.resolved hs code st) crt).createCalls = 1) := by
  have hbeq : (hs == 401) = false := by
    simpa using h401
  constructor
  · intro hok
    simp [nextcloudUserHandler, hu, he, existencePhase, hbeq, hok]
  · intro hnok _
    simp [nextcloudUserHandler, hu, he, existencePhase, hbeq, hnok]

/-- Witness for claim C2 at a concrete "ok" existence response. -/
theorem claim2_existence_check_dispatch_witness :
    truthyOpt (some (.jstr "jdoe")) = true ∧
    truthyOpt (some (.jstr "jdoe@example.edu")) = true ∧
    (200 : Nat) ≠ 401 ∧
    nextcloudUserHandler (some (.jstr "jdoe"))
        (some (.jstr "jdoe@example.edu")) none true
        (.resolved 200 (some 100) (some "ok"))
        (.resolved 200 (some 100) (some "ok") none) =
      ⟨⟨409, false, .alreadyExists⟩, 1, 0, none⟩ :=
  ⟨by decide, by decide, by decide,
    (claim2_existence_check_dispatch (some (.jstr "jdoe"))
      (some (.jstr "jdoe@example.edu")) none
      (.resolved 200 (some 100) (some "ok") none) 200 (some 100) (some "ok")
      (by decide) (by decide) (by decide)).1 (by decide)⟩

/-- Claim C8 counterexample: an axios timeout surfaces as
`ECONNABORTED` with no response attached; the catch block maps it to
the generic 500 internal error, not to the 503 service-unavailable
outcome the claim requires. -/
theorem claim8_counterexample :
    authHandler (some (.jstr "jdoe")) (some (.jstr "pw123"))
      (.err (some "ECONNABORTED") none) = (⟨500, false, .internalErr⟩, 1) := by
  decide

/-- Claim C8 (amended): a timeout of the identity call is reported as
the generic 500 internal error (so it is not conflated with bad
credentials, but it is also not the 503 service-unavailable outcome);
only the `ENOTFOUND` host-resolution failure maps to 503. -/
theorem claim8_timeout_is_internal_error (rs : Option Nat) :
    authHandler (some (.jstr "jdoe")) (some (.jstr "pw123"))
        (.err (some "ECONNABORTED") none) =
      (⟨500, false, .internalErr⟩, 1) ∧
    authHandler (some (.jstr "jdoe")) (some (.jstr "pw123"))
        (.err (some "ENOTFOUND") rs) =
      (⟨503, false, .serviceUnavail⟩, 1) := by
  constructor
  · decide
  · rw [authHandler_valid "jdoe" "pw123" (by decide) (by decide) (by decide)]
    simp [identityDispatch]

/-- Claim C9 counterexample: with `displayName` absent, the form data
sent to the storage platform consists of `userid` and `email` only —
no display-name field equal to the identifier is carried. -/
theorem claim9_counterexample :
    (nextcloudUserHandler (some (.jstr "jdoe"))
        (some (.jstr "jdoe@example.edu")) none true
        (.resolved 404 (some 404) (some "failure"))
        (.resolved 200 (some 100) (some "ok") none)).form =
      some [("userid", "jdoe"), ("email", "jdoe@example.edu")] ∧
    ((nextcloudUserHandler (some (.jstr "jdoe"))
        (some (.jstr "jdoe@example.edu")) none true
        (.resolved 404 (some 404) (some "failure"))
        (.resolved 200 (some 100) (some "ok") none)).form.getD []).all
      (fun kv => kv.1 != "displayName") = true := by
  constructor <;> decide

/-- Claim C9 (amended): for every creation request in which
`displayName` is absent, the creation call carries exactly the
`userid` and `email` fields; no display-name field is sent (any
defaulting to the identifier is left to the storage platform). -/
theorem claim9_display_name_omitted (u e : String) (chk : CheckOutcome)
    (crt : CreateOutcome) (hu : u ≠ "") (he : e ≠ "")
    (hproceed : existencePhase chk = none) :
    (nextcloudUserHandler (some (.jstr u)) (some (.jstr e)) none true
        chk crt).form = some [("userid", u), ("email", e)] := by
  simp [nextcloudUserHandler, truthyOpt, truthy, hu, he, hproceed,
    creationForm, jvalToStr]

/-- Witness for claim C9 at a concrete not-found existence check. -/
theorem claim9_display_name_omitted_witness :
    "jdoe" ≠ "" ∧ "jdoe@example.edu" ≠ "" ∧
    existencePhase (.resolved 404 (some 404) (some "failure")) = none ∧
    (nextcloudUserHandler (some (.jstr "jdoe"))
        (some (.jstr "jdoe@example.edu")) none true
        (.resolved 404 (some 404) (some "failure"))
        (.resolved 200 (some 100) (some "ok") none)).form =
      some [("userid", "jdoe"), ("email", "jdoe@example.edu")] :=
  ⟨by decide, by decide, by decide,
    claim9_display_name_omitted "jdoe" "jdoe@example.edu"
      (.resolved 404 (some 404) (some "failure"))
      (.resolved 200 (some 100) (some "ok") none)
      (by decide) (by decide) (by decide)⟩

/-- Claim C10: the provisioning endpoint itself verifies no
eligibility and no identifier format — its malformed-input 400 fires
exactly when `rzUsername` or `email` is falsy (missing/empty), and with
both fields truthy and admin credentials configured it always performs
the existence check toward the storage platform.  The handler takes no
eligibility input at all: the eligibility-before-provisioning
sequencing exists only in the frontend `register` function (claim
C1). -/
theorem claim10_no_eligibility_in_handler (uname email dname : Option JVal)
    (creds : Bool) (chk : CheckOutcome) (crt : CreateOutcome) :
    ((nextcloudUserHandler uname email dname creds chk crt).resp.tag =
        NCTag.missingFields ↔
      (truthyOpt uname = false ∨ truthyOpt email = false)) ∧
    (truthyOpt uname = true → truthyOpt email = true → creds = true →
      (nextcloudUserHandler uname email dname creds chk crt).checkCalls =
        1) := by
  constructor
  · constructor
    · intro htag
      by_contra hcon
      push_neg at hcon
      have hu : truthyOpt uname = true := by
        simpa using hcon.1
      have he : truthyOpt email = true := by
        simpa using hcon.2
      cases creds with
      | false => simp [nextcloudUserHandler, hu, he] at htag
      | true =>
          rcases hex : existencePhase chk with _ | r
          · simp only [nextcloudUserHandler, hu, he] at htag
            simp [hex] at htag
            exact creationPhase_tag_ne crt htag
          · simp only [nextcloudUserHandler, hu, he] at htag
            simp [hex] at htag
            exact existencePhase_tag_ne chk r hex htag
    · intro hfal
      rcases hfal with hfal | hfal <;> simp [nextcloudUserHandler, hfal]
  · intro hu he hc
    subst hc
    rcases hex : existencePhase chk with _ | r <;>
      simp [nextcloudUserHandler, hu, he, hex]

/-- Witness for claim C10: a never-authenticated identifier with an
embedded space still drives an existence check. -/
theorem claim10_no_eligibility_in_handler_witness :
    truthyOpt (some (.jstr "no auth ran")) = true ∧
    truthyOpt (some (.jstr "x@example.edu")) = true ∧
    ((nextcloudUserHandler (some (.jstr "no auth ran"))
        (some (.jstr "x@example.edu")) none true
        (.resolved 404 (some 404) (some "failure"))
        (.resolved 200 (some 100) (some "ok") none)).resp.tag =
          NCTag.missingFields ↔
      (truthyOpt (some (.jstr "no auth ran")) = false ∨
        truthyOpt (some (.jstr "x@example.edu")) = false)) ∧
    (nextcloudUserHandler (some (.jstr "no auth ran"))
        (some (.jstr "x@example.edu")) none true
        (.resolved 404 (some 404) (some "failure"))
        (.resolved 200 (some 100) (some "ok") none)).checkCalls = 1 :=
  ⟨by decide, by decide,
    (claim10_no_eligibility_in_handler (some (.jstr "no auth ran"))
      (some (.jstr "x@example.edu")) none true
      (.resolved 404 (some 404) (some "failure"))
      (.resolved 200 (some 100) (some "ok") none)).1,
    (claim10_no_eligibility_in_handler (some (.jstr "no auth ran"))
      (some (.jstr "x@example.edu")) none true
      (.resolved 404 (some 404) (some "failure"))
      (.resolved 200 (some 100) (some "ok") none)).2
      (by decide) (by decide) rfl⟩

/-- Claim C3 counterexample: a resolved existence-check response whose
combined status is neither a clean "ok", nor a clean "not found", nor
an outer 401 (here outer 200 with inner OCS code 999 and status
"error") is not propagated as a failure — the handler silently proceeds
to the creation call and even reports a successful creation. -/
theorem claim3_counterexample :
    nextcloudUserHandler (some (.jstr "jdoe"))
        (some (.jstr "jdoe@example.edu")) none true
        (.resolved 200 (some 999) (some "error"))
        (.resolved 200 (some 100) (some "ok") none) =
      ⟨⟨201, true, .created⟩, 1, 1,
        some [("userid", "jdoe"), ("email", "jdoe@example.edu")]⟩ := by
  decide

/-- Claim C3 (amended): only existence-check attempts that the
transport layer rejects are propagated: a thrown error whose code is
neither `ECONNREFUSED` nor `ENOTFOUND` is surfaced to the caller with
no creation call (as its response status, as a 500 configuration error
when that status is 401, or as a 500 internal error without a
response), while `ECONNREFUSED`/`ENOTFOUND` proceed to creation; a
*resolved* response with an unrecognized inner status (neither the
"ok" nor the "not found" signal, outer not 401) also proceeds to the
creation call rather than propagating a failure. -/
theorem claim3_unexpected_check_outcomes (uname email dname : Option JVal)
    (crt : CreateOutcome) (hu : truthyOpt uname = true)
    (he : truthyOpt email = true) :
    (∀ ec rs n, ec ≠ some "ECONNREFUSED" → ec ≠ some "ENOTFOUND" →
      rs = some n → n ≠ 401 →
      nextcloudUserHandler uname email dname true (.thrown ec rs) crt =
        ⟨⟨n, false, .upstreamFailure⟩, 1, 0, none⟩) ∧
    (∀ ec, ec ≠ some "ECONNREFUSED" → ec ≠ some "ENOTFOUND" →
      nextcloudUserHandler uname email dname true (.thrown ec none) crt =
        ⟨⟨500, false, .internalError⟩, 1, 0, none⟩) ∧
    (∀ ec rs, ec ≠ some "ECONNREFUSED" → ec ≠ some "ENOTFOUND" →
      rs = some 401 →
      nextcloudUserHandler uname email dname true (.thrown ec rs) crt =
        ⟨⟨500, false, .adminAuthInvalid⟩, 1, 0, none⟩) ∧
    (∀ rs,
      (nextcloudUserHandler uname email dname true
          (.thrown (some "ECONNREFUSED") rs) crt).createCalls = 1 ∧
      (nextcloudUserHandler uname email dname true
          (.thrown (some "ENOTFOUND") rs) crt).createCalls = 1) ∧
    (∀ hs code st, hs ≠ 401 → innerOk code st = false →
      (nextcloudUserHandler uname email dname true
          (.resolved hs code st) crt).createCalls = 1) := by
  refine ⟨?_, ?_, ?_, ?_, ?_⟩
  · intro ec rs n h1 h2 h3 h4
    subst h3
    have hn : (some n == some 401) = false := by simpa using h4
    simp [nextcloudUserHandler, hu, he, existencePhase, h1, h2, hn]
  · intro ec h1 h2
    simp [nextcloudUserHandler, hu, he, existencePhase, h1, h2]
  · intro ec rs h1 h2 h3
    subst h3
    simp [nextcloudUserHandler, hu, he, existencePhase, h1, h2]
  · intro rs
    constructor <;> simp [nextcloudUserHandler, hu, he, existencePhase]
  · intro hs code st h1 h2
    have hbeq : (hs == 401) = false := by simpa using h1
    simp [nextcloudUserHandler, hu, he, existencePhase, hbeq, h2]

/-- Witness for claim C3 at a concrete thrown 502 existence check. -/
theorem claim3_unexpected_check_outcomes_witness :
    truthyOpt (some (.jstr "jdoe")) = true ∧
    some "EAI_AGAIN" ≠ some "ECONNREFUSED" ∧
    nextcloudUserHandler (some (.jstr "jdoe"))
        (some (.jstr "jdoe@example.edu")) none true
        (.thrown (some "EAI_AGAIN") (some 502))
        (.resolved 200 (some 100) (some "ok") none) =
      ⟨⟨502, false, .upstreamFailure⟩, 1, 0, none⟩ :=
  ⟨by decide, by decide,
    (claim3_unexpected_check_outcomes (some (.jstr "jdoe"))
      (some (.jstr "jdoe@example.edu")) none
      (.resolved 200 (some 100) (some "ok") none)
      (by decide) (by decide)).1 (some "EAI_AGAIN") (some 502) 502
      (by decide) (by decide) rfl (by decide)⟩

/-- Claim C4 counterexample: an identity-provider 500 response (axios
error with code `ERR_BAD_RESPONSE` and response status 500) is mapped
to the handler's own 500 internal-server-error branch, not to the
generic 401 authentication failure the claim requires. -/
theorem claim4_counterexample :
    authHandler (some (.jstr "jdoe")) (some (.jstr "pw123"))
      (.err (some "ERR_BAD_RESPONSE") (some 500)) =
    (⟨500, false, .internalErr⟩, 1) := by
  decide

/-- Claim C4 (amended): among identity-provider failures other than
`ENOTFOUND`, exactly the upstream 401/403 statuses are reported as the
generic 401 authentication failure; any other non-2xx response is
reported as a 500 internal server error.  Malformed 2xx responses (a
2xx status other than 200, or a 200 with a falsy payload) are reported
as the generic 401 authentication failure. -/
theorem claim4_error_mapping (u p : String) (hu : validUname u = true)
    (hp1 : 1 ≤ p.length) (hp2 : p.length ≤ 256) :
    (∀ code rs, code ≠ some "ENOTFOUND" →
      (rs = some 401 ∨ rs = some 403) →
      authHandler (some (.jstr u)) (some (.jstr p)) (.err code rs) =
        (⟨401, false, .authFailed⟩, 1)) ∧
    (∀ code rs, code ≠ some "ENOTFOUND" → rs ≠ some 401 → rs ≠ some 403 →
      authHandler (some (.jstr u)) (some (.jstr p)) (.err code rs) =
        (⟨500, false, .internalErr⟩, 1)) ∧
    (∀ st d, st ≠ 200 →
      authHandler (some (.jstr u)) (some (.jstr p)) (.ok st d) =
        (⟨401, false, .authFailed⟩, 1)) ∧
    (authHandler (some (.jstr u)) (some (.jstr p)) (.ok 200 none) =
      (⟨401, false, .authFailed⟩, 1)) := by
  refine ⟨?_, ?_, ?_, ?_⟩
  · intro code rs hc hrs
    rw [authHandler_valid u p hu hp1 hp2]
    rcases hrs with h | h <;> subst h <;> simp [identityDispatch, hc]
  · intro code rs hc h1 h3
    rw [authHandler_valid u p hu hp1 hp2]
    have hb1 : (rs == some 401) = false := by simpa using h1
    have hb3 : (rs == some 403) = false := by simpa using h3
    simp [identityDispatch, hc, hb1, hb3]
  · intro st d hst
    rw [authHandler_valid u p hu hp1 hp2]
    have hb : (st == 200) = false := by simpa using hst
    cases d <;> simp [identityDispatch, hb]
  · rw [authHandler_valid u p hu hp1 hp2]
    simp [identityDispatch]

/-- Witness for claim C4 at a concrete upstream 502 response. -/
theorem claim4_error_mapping_witness :
    validUname "jdoe" = true ∧
    authHandler (some (.jstr "jdoe")) (some (.jstr "pw123"))
        (.err (some "ERR_BAD_RESPONSE") (some 502)) =
      (⟨500, false, .internalErr⟩, 1) :=
  ⟨by decide,
    (claim4_error_mapping "jdoe" "pw123" (by decide) (by decide)
      (by decide)).2.1 (some "ERR_BAD_RESPONSE") (some 502)
      (by decide) (by decide) (by decide)⟩

/-- Claim C7 counterexample: `logger.sanitize` is shallow and the
middleware nests the body one level deep, redacting only `rzPassword`.
A request whose body carries a field literally named `secret` is
serialized with the secret value intact, so the serialized log output
contains the literal secret. -/
theorem claim7_counterexample :
    occursIn "hunter2".data
      (mwLogLine "2025-01-01T00:00:00.000Z" "POST" "/api/auth" "::1" "curl"
        (some [("rzUsername", .jstr "jdoe"),
               ("secret", .jstr "hunter2")])) = true := by
  decide

/-- Claim C7 (amended): redaction holds for the field the application
actually transmits its secret in: for any request whose body is a flat
string-valued object carrying the secret only in the `rzPassword`
field, the serialized middleware log line never contains the literal
secret — provided the secret contains no JSON structural character and
does not occur inside any other logged component.  A secret carried
under any other name (e.g. a body field `secret` or `password`) is not
redacted, as the counterexample shows. -/
theorem claim7_rzPassword_redacted (ts method path ip ua secret : String)
    (bodyFields : FlatObj)
    (hne : secret.data ≠ [])
    (hq : '"' ∉ secret.data) (hob : '{' ∉ secret.data)
    (hcb : '}' ∉ secret.data) (hcolon : ':' ∉ secret.data)
    (hcomma : ',' ∉ secret.data)
    (hpre : occursIn secret.data
      ("[INFO] " ++ ts ++ " - " ++ ("Incoming " ++ method ++ " request") ++
        " ").data = false)
    (e₁ : escapeStr path.data = path.data)
    (h₁ : occursIn secret.data path.data = false)
    (e₂ : escapeStr ip.data = ip.data)
    (h₂ : occursIn secret.data ip.data = false)
    (e₃ : escapeStr ua.data = ua.data)
    (h₃ : occursIn secret.data ua.data = false)
    (hkpath : occursIn secret.data "path".data = false)
    (hkip : occursIn secret.data "ip".data = false)
    (hkua : occursIn secret.data "userAgent".data = false)
    (hkbody : occursIn secret.data "body".data = false)
    (hred : occursIn secret.data "[REDACTED]".data = false)
    (hnd : bodyFields.Pairwise (fun a b => a.1 ≠ b.1))
    (hf : ∀ kv ∈ bodyFields, bodyFieldSafe secret.data kv = true) :
    occursIn secret.data
      (mwLogLine ts method path ip ua (some bodyFields)) = false := by
  rw [mwLogLine_eq ts method path ip ua (some bodyFields) e₁ e₂ e₃]
  refine occursIn_split_false _ _ hob hpre ?_
  refine piece_free _ _ _ _ hne hq hcolon hkpath h₁ ?_
  refine occursIn_split_false [] _ hcomma (occursIn_nil_eq_false _ hne) ?_
  refine piece_free _ _ _ _ hne hq hcolon hkip h₂ ?_
  refine occursIn_split_false [] _ hcomma (occursIn_nil_eq_false _ hne) ?_
  refine piece_free _ _ _ _ hne hq hcolon hkua h₃ ?_
  refine occursIn_split_false [] _ hcomma (occursIn_nil_eq_false _ hne) ?_
  refine occursIn_split_false [] _ hq (occursIn_nil_eq_false _ hne) ?_
  refine occursIn_split_false _ _ hq hkbody ?_
  refine occursIn_split_false [] _ hcolon (occursIn_nil_eq_false _ hne) ?_
  refine occursIn_split_false [] _ hob (occursIn_nil_eq_false _ hne) ?_
  refine flatBlob_free _ hne hq hcolon hcomma _ ?_ _ ?_
  · exact mwSafeBody_fields _ hne bodyFields hnd hred
      (fun kv hkv => bodyFieldSafe_spec _ _ (hf kv hkv))
  · refine occursIn_split_false [] ['}'] hcb (occursIn_nil_eq_false _ hne) ?_
    exact occursIn_singleton_eq_false _ _ hne hcb

/-- Witness for claim C7 at a concrete request with the secret in the
`rzPassword` field. -/
theorem claim7_rzPassword_redacted_witness :
    ("zWq9xT".data ≠ ([] : List Char)) ∧
    ('"' ∉ "zWq9xT".data) ∧
    (∀ kv ∈ ([("rzUsername", JVal.jstr "jdoe"),
        ("rzPassword", JVal.jstr "zWq9xT"),
        ("email", JVal.jstr "jdoe@example.edu")] : FlatObj),
      bodyFieldSafe "zWq9xT".data kv = true) ∧
    occursIn "zWq9xT".data
      (mwLogLine "2025-01-01T00:00:00.000Z" "POST" "/api/auth" "::1" "curl"
        (some [("rzUsername", JVal.jstr "jdoe"),
               ("rzPassword", JVal.jstr "zWq9xT"),
               ("email", JVal.jstr "jdoe@example.edu")])) = false :=
  ⟨by decide, by decide, by decide,
    claim7_rzPassword_redacted "2025-01-01T00:00:00.000Z" "POST" "/api/auth"
      "::1" "curl" "zWq9xT"
      [("rzUsername", JVal.jstr "jdoe"),
       ("rzPassword", JVal.jstr "zWq9xT"),
       ("email", JVal.jstr "jdoe@example.edu")]
      (by decide) (by decide) (by decide) (by decide) (by decide) (by decide)
      (by decide) (by decide) (by decide) (by decide) (by decide) (by decide)
      (by decide) (by decide) (by decide) (by decide) (by decide) (by decide)
      (by decide) (by decide)⟩
